import Mathlib

/-!
Verification of the safecrate CLI (src/src/main.rs).

The program is a thin wrapper over an external container engine: each
handler canonicalizes a directory path, derives a container name, builds
an argument list for the engine, executes it, and inspects exit status
and stdout.  We embed the handlers as pure functions: the results of the
I/O interactions (path canonicalization, the `ps` stdout, each child
process's exit status) are passed in as parameters, and each handler
returns the list of engine invocations it issued together with its
printed output and its final `Result`.
-/

set_option autoImplicit false

namespace Safecrate

/-- Model of Rust `OsStr`: a platform string that either is valid UTF-8
(`utf8 s`, where `to_str` succeeds) or is not (`bytes b`, where `to_str`
returns `None`). -/
inductive OsStr where
  | utf8 (s : String)
  | bytes (b : List Nat)
deriving Repr, DecidableEq

/-- Rust `OsStr::to_str`: `Some` exactly on valid UTF-8. -/
def OsStr.to_str : OsStr → Option String
  | .utf8 s => some s
  | .bytes _ => none

/-- The result of `std::fs::canonicalize`: an absolute path, given as its
list of components after the root (empty for the filesystem root) plus
its `Display` rendering (used verbatim in the `-v` mount argument). -/
structure CanonPath where
  components : List OsStr
  display : String
deriving Repr, DecidableEq

/-- Rust `Path::file_name` on a canonical absolute path: the final
component, or `None` when there is none (the filesystem root). -/
def CanonPath.file_name (p : CanonPath) : Option OsStr :=
  p.components.getLast?

/-- One child-process invocation: `.status` for `Command::status()` calls
(inherited stdio) and `.output` for `Command::output()` calls (captured
stdout). -/
inductive Invocation where
  | status (program : String) (args : List String)
  | output (program : String) (args : List String)
deriving Repr, DecidableEq

instance {ε α : Type} [DecidableEq ε] [DecidableEq α] : DecidableEq (Except ε α) :=
  fun x y =>
    match x, y with
    | .ok a, .ok b =>
      if h : a = b then .isTrue (by rw [h])
      else .isFalse (by intro hh; cases hh; exact h rfl)
    | .ok _, .error _ => .isFalse (by intro h; cases h)
    | .error _, .ok _ => .isFalse (by intro h; cases h)
    | .error e, .error f =>
      if h : e = f then .isTrue (by rw [h])
      else .isFalse (by intro hh; cases hh; exact h rfl)

/-- What a handler run produces: the engine invocations it issued in
order, the lines printed to stdout, and its `Result` (an `Except.error`
makes the process exit non-zero with the message on stderr). -/
structure HandlerResult where
  invocations : List Invocation
  printed : List String
  outcome : Except String Unit
deriving Repr, DecidableEq

/-- Split a character list at every separator (per `p`), keeping empty
pieces; `acc` holds the current piece reversed. -/
def split_chars (p : Char → Bool) : List Char → List Char → List String
  | [], acc => [String.mk acc.reverse]
  | c :: cs, acc =>
    if p c then String.mk acc.reverse :: split_chars p cs []
    else split_chars p cs (c :: acc)

/-- Rust `str::split_whitespace`: split on whitespace, dropping empty
pieces. -/
def split_whitespace (s : String) : List String :=
  (split_chars Char.isWhitespace s.data []).filter (fun w => w ≠ "")

/-- Rust `str::trim`: drop leading and trailing whitespace. -/
def rust_trim (s : String) : String :=
  String.mk (((s.data.dropWhile Char.isWhitespace).reverse.dropWhile
    Char.isWhitespace).reverse)

/-- The `docker_args` vector built by `open` (main.rs lines 118-136):
`run`, `-it`, `--rm` unless `keep_container`, `--name <container_name>`,
`--network bridge` unless `no_network`, the mount, the workdir, the fixed
image, then the whitespace-split words of `cmd`. -/
def open_docker_args (container_name : String) (abs_dir_display : String)
    (cmd : String) (keep_container : Bool) (no_network : Bool) : List String :=
  let docker_args : List String := ["run", "-it"]
  let docker_args := if !keep_container then docker_args ++ ["--rm"] else docker_args
  let docker_args := docker_args ++ ["--name", container_name]
  let docker_args := if !no_network then docker_args ++ ["--network", "bridge"] else docker_args
  let docker_args := docker_args ++ ["-v", abs_dir_display ++ ":/workspace"]
  let docker_args := docker_args ++ ["-w", "/workspace"]
  let docker_args := docker_args ++ ["safecrate_default"]
  docker_args ++ split_whitespace cmd

/-- The engine-option region of the `open` invocation: every argument
before the image name.  Arguments after the image are the in-container
command, not options read by the engine. -/
def open_engine_opts (container_name : String) (abs_dir_display : String)
    (keep_container : Bool) (no_network : Bool) : List String :=
  ["run", "-it"] ++ (if keep_container then [] else ["--rm"])
    ++ ["--name", container_name]
    ++ (if no_network then [] else ["--network", "bridge"])
    ++ ["-v", abs_dir_display ++ ":/workspace", "-w", "/workspace"]

/-- The `open` handler (main.rs lines 109-144).  `canon` is the outcome of
`std::fs::canonicalize(&dir)` (`.error e` when the path does not exist or
cannot be canonicalized, `e` the propagated I/O error message);
`run_success` is whether the `docker run` child exited with status 0. -/
def open_handler (canon : Except String CanonPath) (cmd : String)
    (keep_container : Bool) (no_network : Bool) (run_success : Bool) : HandlerResult :=
  match canon with
  | .error e => { invocations := [], printed := [], outcome := .error e }
  | .ok abs_dir =>
    match abs_dir.file_name.bind OsStr.to_str with
    | none =>
        { invocations := [], printed := []
          outcome := .error ("Invalid directory name") }
    | some project_name =>
      let container_name := project_name ++ "_isolated"
      let docker_args :=
        open_docker_args container_name abs_dir.display cmd keep_container no_network
      { invocations := [.status ("docker") docker_args]
        printed := []
        outcome :=
          if run_success then .ok () else .error ("Failed to open container") }

/-- The `resume` handler (main.rs lines 147-184).  `ps_stdout` is the
captured stdout of the `docker ps` query; `start_success` is whether the
`docker start` child exited with status 0. -/
def resume (canon : Except String CanonPath) (ps_stdout : String)
    (start_success : Bool) : HandlerResult :=
  match canon with
  | .error e => { invocations := [], printed := [], outcome := .error e }
  | .ok abs_dir =>
    match abs_dir.file_name.bind OsStr.to_str with
    | none =>
        { invocations := [], printed := []
          outcome := .error ("Invalid directory name") }
    | some project_name =>
      let container_name := project_name ++ "_isolated"
      let ps_inv := Invocation.output ("docker")
        ["ps", "-a", "--filter", "name=" ++ container_name, "--format",
          "\x7b\x7b.Names\x7d\x7d"]
      let container_exists := !((rust_trim ps_stdout).isEmpty)
      if !container_exists then
        { invocations := [ps_inv], printed := []
          outcome := .error
            ("No existing container to resume. Run `safecrate open` first with --keep-container.") }
      else
        { invocations := [ps_inv, .status ("docker") ["start", "-ai", container_name]]
          printed := []
          outcome :=
            if start_success then .ok () else .error ("Failed to resume container") }

/-- The `remove` handler (main.rs lines 186-208).  `rm_success` is whether
the `docker rm` child exited with status 0. -/
def remove (canon : Except String CanonPath) (force : Bool)
    (rm_success : Bool) : HandlerResult :=
  match canon with
  | .error e => { invocations := [], printed := [], outcome := .error e }
  | .ok abs_dir =>
    match abs_dir.file_name.bind OsStr.to_str with
    | none =>
        { invocations := [], printed := []
          outcome := .error ("Invalid directory name") }
    | some project_name =>
      let container_name := project_name ++ "_isolated"
      let args := ["rm"] ++ (if force then ["-f"] else []) ++ [container_name]
      if rm_success then
        { invocations := [.status ("docker") args]
          printed := ["✅ Removed container " ++ container_name]
          outcome := .ok () }
      else
        { invocations := [.status ("docker") args], printed := []
          outcome := .error ("Failed to remove container") }

/-- What `init` produces: the build invocation, stdout lines, stderr
lines, and its `Result`. -/
structure InitResult where
  invocations : List Invocation
  printed : List String
  err_printed : List String
  outcome : Except String Unit
deriving Repr, DecidableEq

/-- The `init` handler after the Dockerfile path has been chosen
(main.rs lines 89-105).  `build_success` is whether the `docker build`
child exited with status 0.  Note the source prints the success banner
and returns `Ok(())` unconditionally; a failed build only produces an
`eprint`. -/
def init (dockerfile_path : String) (build_success : Bool) : InitResult :=
  { invocations :=
      [.status ("docker") (["build", "-t", "safecrate_default", "-f"]
        ++ [dockerfile_path] ++ ["."])]
    err_printed := if !build_success then ["Docker build failed!"] else []
    printed :=
      ["\n✅ Built the base image!",
       "⚠️  WARNING: Running untrusted code in Docker is NOT 100% secure.",
       "\tDocker escape is still possible. For maximum safety, run inside a full VM (e.g., VMWare, VirtualBox, QEMU).",
       "\nUsage:",
       "\t$> safecrate open UNTRUSTED_CODE_DIR"]
    outcome := .ok () }

/-- A concrete canonical path used in witnesses: `/home/u/proj`. -/
def example_path : CanonPath :=
  { components := [.utf8 ("home"), .utf8 ("u"), .utf8 ("proj")]
    display := "/home/u/proj" }

/-- The newline-delimited name list the specification describes: the
trimmed `ps` output split at newlines.  (The source never computes this
list; it only tests whether the trimmed output is empty.) -/
def newline_list (s : String) : List String :=
  split_chars (fun c => c == '\n') (rust_trim s).data []

example : split_whitespace ("ls") = ["ls"] := by decide
example : split_whitespace ("nvim .") = ["nvim", "."] := by decide
example : example_path.file_name.bind OsStr.to_str = some ("proj") := by decide
example : newline_list ("a\nb\n") = ["a", "b"] := by decide

/-- No string of the form `s ++ "_isolated"` equals a string shorter than
9 characters (such as one of the fixed engine flags). -/
theorem append_isolated_ne (s t : String) (hlen : t.length < 9) :
    s ++ "_isolated" ≠ t := by
  intro hEq
  have hL := congrArg String.length hEq
  rw [String.length_append] at hL
  have h9 : ("_isolated" : String).length = 9 := rfl
  omega

/-- C9: when path canonicalization fails (the directory does not exist or
cannot be canonicalized), `open`, `resume` and `remove` all propagate the
path error and issue no engine invocation. -/
theorem canonicalize_failure_no_engine (e cmd ps : String)
    (keep nonet force ok1 ok2 ok3 : Bool) :
    open_handler (.error e) cmd keep nonet ok1
        = { invocations := [], printed := [], outcome := .error e }
      ∧ resume (.error e) ps ok2
        = { invocations := [], printed := [], outcome := .error e }
      ∧ remove (.error e) force ok3
        = { invocations := [], printed := [], outcome := .error e } :=
  ⟨rfl, rfl, rfl⟩

/-- C10: when the canonical path has no final component (the filesystem
root) or its final component is not valid UTF-8, `open`, `resume` and
`remove` all fail with the "Invalid directory name" error and issue no
engine invocation. -/
theorem invalid_directory_name_no_engine (p : CanonPath) (cmd ps : String)
    (h : p.file_name.bind OsStr.to_str = none)
    (keep nonet force ok1 ok2 ok3 : Bool) :
    open_handler (.ok p) cmd keep nonet ok1
        = { invocations := [], printed := []
            outcome := .error ("Invalid directory name") }
      ∧ resume (.ok p) ps ok2
        = { invocations := [], printed := []
            outcome := .error ("Invalid directory name") }
      ∧ remove (.ok p) force ok3
        = { invocations := [], printed := []
            outcome := .error ("Invalid directory name") } := by
  refine ⟨?_, ?_, ?_⟩ <;> simp [open_handler, resume, remove, h]

/-- Witness for C10 at the filesystem root `/`, whose canonical path has
no final component. -/
theorem invalid_directory_name_no_engine_witness :
    (CanonPath.mk [] ("/")).file_name.bind OsStr.to_str = none
      ∧ (open_handler (.ok (CanonPath.mk [] ("/"))) ("nvim .") false false true
          = { invocations := [], printed := []
              outcome := .error ("Invalid directory name") }
        ∧ resume (.ok (CanonPath.mk [] ("/"))) ("") true
          = { invocations := [], printed := []
              outcome := .error ("Invalid directory name") }
        ∧ remove (.ok (CanonPath.mk [] ("/"))) false true
          = { invocations := [], printed := []
              outcome := .error ("Invalid directory name") }) :=
  ⟨by decide,
   invalid_directory_name_no_engine (CanonPath.mk [] ("/")) ("nvim .") ("")
     (by decide) false false false true true true⟩

/-- C2 (code behavior at the failing input): when the `docker build`
child exits non-zero, `init` still returns `Ok` (process exit 0) and
still prints the success banner; the failure only adds an `eprint`
message.  This contradicts the specified non-zero-exit, no-banner
behavior. -/
theorem init_build_failure_behavior :
    (init ("/tmp/Dockerfile.safecrate") false).outcome = .ok ()
      ∧ (init ("/tmp/Dockerfile.safecrate") false).printed.head?
          = some ("\n✅ Built the base image!")
      ∧ (init ("/tmp/Dockerfile.safecrate") false).err_printed
          = ["Docker build failed!"] :=
  ⟨rfl, rfl, rfl⟩

/-- C1 (counterexample to the stated form): `open /home/u/proj --cmd "ls"`
builds a run invocation that ends with the bare word `ls` directly after
the image name; no `sh` and no `-c` argument appears anywhere in it. -/
theorem open_no_shell_counterexample :
    (open_handler (.ok example_path) ("ls") false false true).invocations
        = [.status ("docker")
            ["run", "-it", "--rm", "--name", "proj_isolated", "--network", "bridge",
             "-v", "/home/u/proj:/workspace", "-w", "/workspace", "safecrate_default",
             "ls"]]
      ∧ "sh" ∉ open_docker_args ("proj_isolated") ("/home/u/proj") ("ls") false false
      ∧ "-c" ∉ open_docker_args ("proj_isolated") ("/home/u/proj") ("ls") false false := by
  refine ⟨by decide, by decide, by decide⟩

/-- C1 (amended): for every canonicalizable directory with a valid
basename, the run invocation is `run -it [--rm] --name <basename>_isolated
[--network bridge] -v <display>:/workspace -w /workspace safecrate_default`
followed by the user-supplied command split on whitespace, each word its
own argument — there is no `sh -c` shell wrapper. -/
theorem open_run_invocation_shape (p : CanonPath) (s cmd : String)
    (h : p.file_name.bind OsStr.to_str = some s) (keep nonet ok : Bool) :
    (open_handler (.ok p) cmd keep nonet ok).invocations
      = [.status ("docker")
          (["run", "-it"] ++ (if keep then [] else ["--rm"])
            ++ ["--name", s ++ "_isolated"]
            ++ (if nonet then [] else ["--network", "bridge"])
            ++ ["-v", p.display ++ ":/workspace", "-w", "/workspace",
                "safecrate_default"]
            ++ split_whitespace cmd)] := by
  simp only [open_handler, h]
  cases keep <;> cases nonet <;> simp [open_docker_args]

/-- Witness for C1 (amended) at `/home/u/proj` with command `ls`. -/
theorem open_run_invocation_shape_witness :
    example_path.file_name.bind OsStr.to_str = some ("proj")
      ∧ (open_handler (.ok example_path) ("ls") false false true).invocations
        = [.status ("docker")
            (["run", "-it"] ++ (if false then [] else ["--rm"])
              ++ ["--name", "proj" ++ "_isolated"]
              ++ (if false then [] else ["--network", "bridge"])
              ++ ["-v", example_path.display ++ ":/workspace", "-w", "/workspace",
                  "safecrate_default"]
              ++ split_whitespace ("ls"))] :=
  ⟨by decide,
   open_run_invocation_shape example_path ("proj") ("ls") (by decide) false false true⟩

/-- C3: `open`, `resume` and `remove` all derive the same container name
from the canonical path, namely the basename followed by `_isolated`;
the name is a pure function of the canonical path (each handler receives
only the canonicalization result, so two input paths with the same
canonical form yield identical behavior). -/
theorem container_name_consistent (p : CanonPath) (s cmd ps : String)
    (h : p.file_name.bind OsStr.to_str = some s)
    (keep nonet force ok1 ok2 ok3 : Bool) :
    (open_handler (.ok p) cmd keep nonet ok1).invocations
        = [.status ("docker")
            (open_docker_args (s ++ "_isolated") p.display cmd keep nonet)]
      ∧ (resume (.ok p) ps ok2).invocations
        = [.output ("docker")
            ["ps", "-a", "--filter", "name=" ++ (s ++ "_isolated"), "--format",
              "\x7b\x7b.Names\x7d\x7d"]]
          ++ (if (rust_trim ps).isEmpty then []
              else [.status ("docker") ["start", "-ai", s ++ "_isolated"]])
      ∧ (remove (.ok p) force ok3).invocations
        = [.status ("docker")
            (["rm"] ++ (if force then ["-f"] else []) ++ [s ++ "_isolated"])] := by
  refine ⟨?_, ?_, ?_⟩
  · simp [open_handler, h]
  · simp only [resume, h]
    cases hE : (rust_trim ps).isEmpty <;> simp
  · simp only [remove, h]
    cases ok3 <;> simp

/-- Witness for C3 at `/home/u/proj`: every handler addresses
`proj_isolated`. -/
theorem container_name_consistent_witness :
    example_path.file_name.bind OsStr.to_str = some ("proj")
      ∧ ((open_handler (.ok example_path) ("ls") true false true).invocations
          = [.status ("docker")
              (open_docker_args ("proj" ++ "_isolated") example_path.display ("ls")
                true false)]
        ∧ (resume (.ok example_path) ("proj_isolated\n") true).invocations
          = [.output ("docker")
              ["ps", "-a", "--filter", "name=" ++ ("proj" ++ "_isolated"), "--format",
                "\x7b\x7b.Names\x7d\x7d"]]
            ++ (if (rust_trim ("proj_isolated\n")).isEmpty then []
                else [.status ("docker") ["start", "-ai", "proj" ++ "_isolated"]])
        ∧ (remove (.ok example_path) true true).invocations
          = [.status ("docker")
              (["rm"] ++ (if (true : Bool) then ["-f"] else [])
                ++ ["proj" ++ "_isolated"])]) :=
  ⟨by decide,
   container_name_consistent example_path ("proj") ("ls") ("proj_isolated\n")
     (by decide) true false true true true true⟩

/-- C4: the engine-option region of the `open` invocation (the arguments
before the image name) contains `--network` and `bridge` exactly when
`no_network` is not set; the full argument list is that region, then the
image, then the whitespace-split user command (which the engine does not
read as options). -/
theorem open_network_flag (cn disp cmd : String) (keep nonet : Bool)
    (h1 : cn ≠ "--network") (h2 : disp ++ ":/workspace" ≠ "--network")
    (h3 : cn ≠ "bridge") (h4 : disp ++ ":/workspace" ≠ "bridge") :
    ("--network" ∈ open_engine_opts cn disp keep nonet ↔ nonet = false)
      ∧ ("bridge" ∈ open_engine_opts cn disp keep nonet ↔ nonet = false)
      ∧ open_docker_args cn disp cmd keep nonet
        = open_engine_opts cn disp keep nonet ++ ["safecrate_default"]
          ++ split_whitespace cmd := by
  refine ⟨?_, ?_, ?_⟩ <;> cases keep <;> cases nonet <;>
    simp [open_engine_opts, open_docker_args, Ne.symm h1, Ne.symm h2,
      Ne.symm h3, Ne.symm h4]

/-- Witness for C4 at `proj_isolated`, `/home/u/proj`, command `ls`,
with `no_network` not set. -/
theorem open_network_flag_witness :
    ("--network" ∈ open_engine_opts ("proj_isolated") ("/home/u/proj") false false
        ↔ false = false)
      ∧ ("bridge" ∈ open_engine_opts ("proj_isolated") ("/home/u/proj") false false
        ↔ false = false)
      ∧ open_docker_args ("proj_isolated") ("/home/u/proj") ("ls") false false
        = open_engine_opts ("proj_isolated") ("/home/u/proj") false false
          ++ ["safecrate_default"] ++ split_whitespace ("ls") :=
  open_network_flag ("proj_isolated") ("/home/u/proj") ("ls") false false
    (by decide) (by decide) (by decide) (by decide)

/-- C5: the engine-option region of the `open` invocation contains the
auto-remove flag `--rm` exactly when `keep_container` is not set; the
full argument list is that region, then the image, then the
whitespace-split user command. -/
theorem open_rm_flag (cn disp cmd : String) (keep nonet : Bool)
    (h1 : cn ≠ "--rm") (h2 : disp ++ ":/workspace" ≠ "--rm") :
    ("--rm" ∈ open_engine_opts cn disp keep nonet ↔ keep = false)
      ∧ open_docker_args cn disp cmd keep nonet
        = open_engine_opts cn disp keep nonet ++ ["safecrate_default"]
          ++ split_whitespace cmd := by
  refine ⟨?_, ?_⟩ <;> cases keep <;> cases nonet <;>
    simp [open_engine_opts, open_docker_args, Ne.symm h1, Ne.symm h2]

/-- Witness for C5 at `proj_isolated`, `/home/u/proj`, command `ls`,
with `keep_container` set. -/
theorem open_rm_flag_witness :
    ("--rm" ∈ open_engine_opts ("proj_isolated") ("/home/u/proj") true false
        ↔ true = false)
      ∧ open_docker_args ("proj_isolated") ("/home/u/proj") ("ls") true false
        = open_engine_opts ("proj_isolated") ("/home/u/proj") true false
          ++ ["safecrate_default"] ++ split_whitespace ("ls") :=
  open_rm_flag ("proj_isolated") ("/home/u/proj") ("ls") true false
    (by decide) (by decide)

/-- C6: when the trimmed `ps` output is empty, `resume` fails with the
exact "No existing container to resume" message (directing the user to
`open --keep-container`, a non-zero process exit) and its only engine
invocation is the `ps` query — it never invokes `start`. -/
theorem resume_nothing_to_resume (p : CanonPath) (s ps : String)
    (h : p.file_name.bind OsStr.to_str = some s)
    (hEmpty : rust_trim ps = "") (ok : Bool) :
    (resume (.ok p) ps ok).outcome
        = .error
          ("No existing container to resume. Run `safecrate open` first with --keep-container.")
      ∧ (resume (.ok p) ps ok).invocations
        = [.output ("docker")
            ["ps", "-a", "--filter", "name=" ++ (s ++ "_isolated"), "--format",
              "\x7b\x7b.Names\x7d\x7d"]] := by
  have hE : (rust_trim ps).isEmpty = true :=
    (String.isEmpty_iff (rust_trim ps)).mpr hEmpty
  refine ⟨?_, ?_⟩ <;> simp [resume, h, hE]

/-- Witness for C6 at `/home/u/proj` with an empty `ps` response. -/
theorem resume_nothing_to_resume_witness :
    rust_trim ("") = ""
      ∧ ((resume (.ok example_path) ("") true).outcome
          = .error
            ("No existing container to resume. Run `safecrate open` first with --keep-container.")
        ∧ (resume (.ok example_path) ("") true).invocations
          = [.output ("docker")
              ["ps", "-a", "--filter", "name=" ++ ("proj" ++ "_isolated"), "--format",
                "\x7b\x7b.Names\x7d\x7d"]]) :=
  ⟨by decide,
   resume_nothing_to_resume example_path ("proj") ("") (by decide) (by decide) true⟩

/-- C7 (counterexample to the stated form): with the `ps` query answering
`proj_isolated_2` — a name list that does not contain the derived name
`proj_isolated` exactly — `resume` still proceeds to start
`proj_isolated` and reports success, because the source only tests that
the trimmed output is non-empty. -/
theorem resume_exact_match_counterexample :
    (resume (.ok example_path) ("proj_isolated_2\n") true).invocations
        = [.output ("docker")
            ["ps", "-a", "--filter", "name=proj_isolated", "--format",
              "\x7b\x7b.Names\x7d\x7d"],
           .status ("docker") ["start", "-ai", "proj_isolated"]]
      ∧ (resume (.ok example_path) ("proj_isolated_2\n") true).outcome = .ok ()
      ∧ "proj_isolated" ∉ newline_list ("proj_isolated_2\n") := by
  refine ⟨by decide, by decide, by decide⟩

/-- C7 (amended): `resume` issues exactly one `ps` query filtered by
`name=<derived-name>` (a name filter, not checked for exactness), and it
proceeds to start the derived name precisely when the returned output is
non-empty after trimming — whether or not the derived name itself appears
in the returned list. -/
theorem resume_start_iff_nonempty (p : CanonPath) (s ps : String)
    (h : p.file_name.bind OsStr.to_str = some s) (ok : Bool) :
    (resume (.ok p) ps ok).invocations.head?
        = some (.output ("docker")
            ["ps", "-a", "--filter", "name=" ++ (s ++ "_isolated"), "--format",
              "\x7b\x7b.Names\x7d\x7d"])
      ∧ (Invocation.status ("docker") ["start", "-ai", s ++ "_isolated"]
            ∈ (resume (.ok p) ps ok).invocations
          ↔ ¬rust_trim ps = "") := by
  have hiff := String.isEmpty_iff (rust_trim ps)
  cases hE : (rust_trim ps).isEmpty with
  | false =>
    rw [hE] at hiff
    refine ⟨?_, ?_⟩ <;> simp [resume, h, hE]
    simp only [Bool.false_eq_true, false_iff] at hiff
    exact hiff
  | true =>
    rw [hE] at hiff
    refine ⟨?_, ?_⟩ <;> simp [resume, h, hE]
    simp only [true_iff] at hiff
    exact hiff

/-- Witness for C7 (amended) at `/home/u/proj` with a non-empty `ps`
response. -/
theorem resume_start_iff_nonempty_witness :
    (resume (.ok example_path) ("proj_isolated\n") true).invocations.head?
        = some (.output ("docker")
            ["ps", "-a", "--filter", "name=" ++ ("proj" ++ "_isolated"), "--format",
              "\x7b\x7b.Names\x7d\x7d"])
      ∧ (Invocation.status ("docker") ["start", "-ai", "proj" ++ "_isolated"]
            ∈ (resume (.ok example_path) ("proj_isolated\n") true).invocations
          ↔ ¬rust_trim ("proj_isolated\n") = "") :=
  resume_start_iff_nonempty example_path ("proj") ("proj_isolated\n") (by decide) true

/-- C8: `remove` issues exactly one `rm` invocation whose arguments
contain `-f` precisely when `force` is set; on engine failure it returns
an error and prints nothing, and on engine success it returns `Ok` and
prints a confirmation naming the removed container. -/
theorem remove_behavior (p : CanonPath) (s : String)
    (h : p.file_name.bind OsStr.to_str = some s) (force ok : Bool) :
    (remove (.ok p) force ok).invocations
        = [.status ("docker")
            (["rm"] ++ (if force then ["-f"] else []) ++ [s ++ "_isolated"])]
      ∧ ("-f" ∈ (["rm"] ++ (if force then ["-f"] else []) ++ [s ++ "_isolated"])
          ↔ force = true)
      ∧ (ok = false →
          (remove (.ok p) force ok).outcome = .error ("Failed to remove container")
            ∧ (remove (.ok p) force ok).printed = [])
      ∧ (ok = true →
          (remove (.ok p) force ok).outcome = .ok ()
            ∧ (remove (.ok p) force ok).printed
              = ["✅ Removed container " ++ (s ++ "_isolated")]) := by
  have hne : s ++ "_isolated" ≠ "-f" := append_isolated_ne s ("-f") (by decide)
  refine ⟨?_, ?_, ?_, ?_⟩
  · simp only [remove, h]
    cases ok <;> simp
  · cases force <;> simp [Ne.symm hne]
  · intro hok; subst hok; exact ⟨by simp [remove, h], by simp [remove, h]⟩
  · intro hok; subst hok; exact ⟨by simp [remove, h], by simp [remove, h]⟩

/-- Witness for C8 at `/home/u/proj` with `force` set and a successful
engine exit. -/
theorem remove_behavior_witness :
    (remove (.ok example_path) true true).invocations
        = [.status ("docker")
            (["rm"] ++ (if (true : Bool) then ["-f"] else [])
              ++ ["proj" ++ "_isolated"])]
      ∧ ("-f" ∈ (["rm"] ++ (if (true : Bool) then ["-f"] else [])
            ++ ["proj" ++ "_isolated"])
          ↔ (true : Bool) = true)
      ∧ ((true : Bool) = false →
          (remove (.ok example_path) true true).outcome
              = .error ("Failed to remove container")
            ∧ (remove (.ok example_path) true true).printed = [])
      ∧ ((true : Bool) = true →
          (remove (.ok example_path) true true).outcome = .ok ()
            ∧ (remove (.ok example_path) true true).printed
              = ["✅ Removed container " ++ ("proj" ++ "_isolated")]) :=
  remove_behavior example_path ("proj") (by decide) true true

end Safecrate
